import Mathlib

/-!
Shallow embedding of the eBay research tool's acquisition pipeline:
the dedup persistence gateway and job state machine
(src/core/database_manager.py), the CLI job orchestrator loop
(src/interfaces/cli_interface.py), and the scraper's pagination loop,
retry wrapper and field extraction (src/services/ebay_scraper.py).
Machine floats are modelled as exact rationals, wall-clock timestamps as
integer seconds, and the SQLAlchemy-backed tables as in-memory lists.
-/

/-- One scraped listing as produced by `_extract_items_data`: a Python dict
whose keys may be absent, hence every field is an `Option`. -/
structure ItemData where
  item_id : Option String := none
  title : Option String := none
  price : Option ℚ := none
  currency : Option String := none
  shipping_price : Option ℚ := none
  stock_quantity : Option Nat := none
  seller_name : Option String := none
  seller_rating : Option ℚ := none
  seller_feedback_count : Option Nat := none
  auction_end_time : Option Int := none
  listing_type : Option String := none
  condition : Option String := none
  is_buy_it_now : Option Bool := none
  bids_count : Option Nat := none
  item_url : Option String := none
  image_url : Option String := none
deriving DecidableEq, Repr

/-- A persisted row of the `ebay_search_results` table (models/data_models.py),
restricted to the columns written by `save_search_results`. -/
structure EbaySearchResult where
  keyword_id : Nat
  item_id : String
  title : String
  price : Option ℚ
  currency : String
  shipping_price : Option ℚ
  stock_quantity : Option Nat
  seller_name : String
  seller_rating : Option ℚ
  seller_feedback_count : Option Nat
  auction_end_time : Option Int
  listing_type : String
  condition : String
  is_buy_it_now : Bool
  bids_count : Nat
  item_url : String
  image_url : String
deriving DecidableEq, Repr

/-- The `EbaySearchResult(...)` constructor call inside `save_search_results`,
including the `result.get(key, default)` fall-backs. -/
def mkEbaySearchResult (keyword_id : Nat) (r : ItemData) : EbaySearchResult :=
  { keyword_id := keyword_id
    item_id := (r.item_id).getD ""
    title := (r.title).getD ""
    price := r.price
    currency := (r.currency).getD "USD"
    shipping_price := r.shipping_price
    stock_quantity := r.stock_quantity
    seller_name := (r.seller_name).getD ""
    seller_rating := r.seller_rating
    seller_feedback_count := r.seller_feedback_count
    auction_end_time := r.auction_end_time
    listing_type := (r.listing_type).getD ""
    condition := (r.condition).getD ""
    is_buy_it_now := (r.is_buy_it_now).getD false
    bids_count := (r.bids_count).getD 0
    item_url := (r.item_url).getD ""
    image_url := (r.image_url).getD "" }

/-- A row of the `keywords` table, restricted to the columns the claims need. -/
structure KeywordRow where
  id : Nat
  keyword : String
  last_searched_at : Option Int := none
  status : String := "active"
deriving DecidableEq, Repr

/-- The database state touched by `save_search_results`. -/
structure DB where
  keywords : List KeywordRow := []
  results : List EbaySearchResult := []
deriving DecidableEq, Repr

/-- The `session.query(Keyword).filter(Keyword.id == keyword_id).first()`
lookup followed by the `keyword.last_searched_at = datetime.utcnow()`
mutation: only the first row with the given id is touched. -/
def touchKeywordFirst (now : Int) (kid : Nat) : List KeywordRow → List KeywordRow
  | [] => []
  | k :: ks =>
    if k.id = kid then { k with last_searched_at := some now } :: ks
    else k :: touchKeywordFirst now kid ks

/-- The duplicate check `session.query(EbaySearchResult).filter(... keyword_id
..., ... item_id ...).first()`, run against the committed rows. -/
def resultExists (rows : List EbaySearchResult) (kid : Nat) (iid : String) : Bool :=
  rows.any (fun row => row.keyword_id == kid && row.item_id == iid)

/-- The per-record guard in `save_search_results`:
`if item_id and not session.query(...).first()`.  The check consults only
rows committed before this call; records accumulated inside the same call
are not yet in the session. -/
def keepRecord (existing : List EbaySearchResult) (kid : Nat) (r : ItemData) : Bool :=
  ((r.item_id).getD "" != "") && !(resultExists existing kid ((r.item_id).getD ""))

/-- `DatabaseManager.save_search_results` (database_manager.py lines 164-217):
empty input returns 0 untouched; otherwise the keyword's `last_searched_at`
is set, each record passing `keepRecord` is inserted, and the number of
inserted rows is returned. -/
def save_search_results (db : DB) (now : Int) (keyword_id : Nat)
    (results : List ItemData) : DB × Nat :=
  if results.isEmpty then (db, 0)
  else
    let keywords1 := touchKeywordFirst now keyword_id db.keywords
    let newRows := results.foldl
      (fun acc r =>
        if keepRecord db.results keyword_id r then acc ++ [mkEbaySearchResult keyword_id r]
        else acc) []
    ({ keywords := keywords1, results := db.results ++ newRows }, newRows.length)

/-- A row of the `search_history` table; column defaults as declared in
models/data_models.py. -/
structure SearchHistoryRow where
  total_keywords : Nat
  processed_keywords : Nat := 0
  successful_keywords : Nat := 0
  failed_keywords : Nat := 0
  status : String := "in_progress"
  start_time : Option Int := none
  end_time : Option Int := none
  execution_time_seconds : Option Int := none
  error_log : Option String := none
deriving DecidableEq, Repr

/-- `DatabaseManager.start_search_job`: a fresh `in_progress` job with zero
counters; `start_time` takes the column default `datetime.utcnow`. -/
def start_search_job (total_keywords : Nat) (now : Int) : SearchHistoryRow :=
  { total_keywords := total_keywords
    processed_keywords := 0
    status := "in_progress"
    start_time := some now }

/-- The `if processed is not None` branch of `update_search_job_status`. -/
def apply_processed (job : SearchHistoryRow) : Option Nat → SearchHistoryRow
  | some p => { job with processed_keywords := p }
  | none => job

/-- The `if successful is not None` branch of `update_search_job_status`. -/
def apply_successful (job : SearchHistoryRow) : Option Nat → SearchHistoryRow
  | some s => { job with successful_keywords := s }
  | none => job

/-- The `if failed is not None` branch of `update_search_job_status`. -/
def apply_failed (job : SearchHistoryRow) : Option Nat → SearchHistoryRow
  | some f => { job with failed_keywords := f }
  | none => job

/-- The `if status:` branch of `update_search_job_status`: any truthy status
string overwrites the current one; if it is terminal, `end_time` is set to
the wall clock and `execution_time_seconds` recomputed from `start_time`. -/
def apply_status (now : Int) (job : SearchHistoryRow) : Option String → SearchHistoryRow
  | none => job
  | some s =>
    if s.isEmpty then job
    else
      let job1 := { job with status := s }
      if s = "completed" ∨ s = "failed" then
        let job2 := { job1 with end_time := some now }
        match job2.start_time with
        | some t0 => { job2 with execution_time_seconds := some (now - t0) }
        | none => job2
      else job1

/-- The `if error:` branch of `update_search_job_status`: a truthy error text
is appended to a truthy existing log with a newline delimiter, otherwise it
replaces the empty log. -/
def apply_error (job : SearchHistoryRow) : Option String → SearchHistoryRow
  | none => job
  | some e =>
    if e.isEmpty then job
    else
      match job.error_log with
      | some l =>
        if l.isEmpty then { job with error_log := some e }
        else { job with error_log := some (l ++ "\n" ++ e) }
      | none => { job with error_log := some e }

/-- `DatabaseManager.update_search_job_status` (lines 240-281): the five
optional-field updates applied in source order. -/
def update_search_job_status (job : SearchHistoryRow) (now : Int)
    (processed successful failed : Option Nat)
    (status error : Option String) : SearchHistoryRow :=
  apply_error
    (apply_status now
      (apply_failed (apply_successful (apply_processed job processed) successful) failed)
      status)
    error

/-- Outcome of one `scraper.search_keyword` call as seen by the CLI loop:
either a (possibly empty) result list or a raised exception message. -/
inductive KwOutcome where
  | ok (results : List ItemData)
  | err (msg : String)
deriving DecidableEq, Repr

/-- The per-keyword body of the CLI `search` command
(cli_interface.py lines 134-191), folded over the keyword batch with its
running index `i`.  A non-empty result saves and reports
`processed=i+1, successful=i+1`; an exception reports
`processed=i+1, failed=(i+1)-((i+1)-1)` plus an error line; an empty
result updates nothing. -/
def search_keywords_loop (now : Int) :
    Nat → List (KeywordRow × KwOutcome) → DB → SearchHistoryRow → DB × SearchHistoryRow
  | _, [], db, job => (db, job)
  | i, (kw, o) :: rest, db, job =>
    match o with
    | KwOutcome.ok results =>
      if results.isEmpty then
        search_keywords_loop now (i + 1) rest db job
      else
        let saved := save_search_results db now kw.id results
        let job1 := update_search_job_status job now
          (some (i + 1)) (some (i + 1)) none (some "in_progress") none
        search_keywords_loop now (i + 1) rest saved.1 job1
    | KwOutcome.err e =>
      let job1 := update_search_job_status job now
        (some (i + 1)) none (some ((i + 1) - ((i + 1) - 1))) (some "in_progress")
        (some ("キーワード '" ++ kw.keyword ++ "': " ++ e))
      search_keywords_loop now (i + 1) rest db job1

/-- The CLI `search` command around the loop (cli_interface.py lines 116-194):
start a job over the whole batch, run the per-keyword loop, then mark the
job `completed` unconditionally. -/
def run_search_command (db : DB) (kws : List (KeywordRow × KwOutcome))
    (t0 tEnd : Int) : DB × SearchHistoryRow :=
  let job0 := start_search_job kws.length t0
  let r := search_keywords_loop t0 0 kws db job0
  (r.1, update_search_job_status r.2 tEnd none none none (some "completed") none)

/-- What one iteration of the pagination loop observes for its page load:
an extracted item list together with the presence of an enabled next-page
control, a `PlaywrightTimeoutError`, or any other exception. -/
inductive PageOutcome where
  | pageItems (itemsList : List ItemData) (hasNext : Bool)
  | timeoutFail
  | otherFail
deriving DecidableEq, Repr

/-- The `while current_page <= self.max_pages` loop of `search_keyword`
(ebay_scraper.py lines 436-505).  `env loads` is the outcome of the
`loads`-th page load (each iteration opens a page and navigates once).
A timeout consumes one unit of the loop-wide `max_retries = 3` budget and
reloads the same page number; any other exception breaks; a page with zero
items breaks; a missing next control breaks after collecting.  The `fuel`
argument is an upper bound on the remaining iterations, consumed once per
iteration; callers supply `maxPages + 4`, which exceeds the loop's real
iteration bound of `maxPages + 3`. -/
def search_pages (env : Nat → PageOutcome) (maxPages : Nat) :
    Nat → Nat → Nat → Nat → List ItemData → List ItemData × Nat
  | 0, _, _, loads, acc => (acc, loads)
  | fuel + 1, currentPage, retries, loads, acc =>
    if currentPage ≤ maxPages then
      match env loads with
      | PageOutcome.timeoutFail =>
        if 0 < retries then
          search_pages env maxPages fuel currentPage (retries - 1) (loads + 1) acc
        else (acc, loads + 1)
      | PageOutcome.otherFail => (acc, loads + 1)
      | PageOutcome.pageItems lst hasNext =>
        if lst.isEmpty then (acc, loads + 1)
        else if hasNext then
          search_pages env maxPages fuel (currentPage + 1) retries (loads + 1) (acc ++ lst)
        else (acc ++ lst, loads + 1)
    else (acc, loads)

/-- The pagination loop entered as `search_keyword` does: page 1, a shared
timeout-retry budget of 3, no items collected yet.  Returns the collected
items and the number of page loads performed. -/
def search_keyword_pages (env : Nat → PageOutcome) (maxPages : Nat) :
    List ItemData × Nat :=
  search_pages env maxPages (maxPages + 4) 1 3 0 []

/-- The exception classes relevant to the tenacity decorator on
`search_keyword`: `PlaywrightTimeoutError`, `ConnectionError`, anything else. -/
inductive PyExc where
  | timeoutExc
  | connectionExc
  | otherExc
deriving DecidableEq, Repr

/-- `retry_if_exception_type((PlaywrightTimeoutError, ConnectionError))`. -/
def is_transport_exc : PyExc → Bool
  | PyExc.timeoutExc => true
  | PyExc.connectionExc => true
  | PyExc.otherExc => false

/-- The body of `search_keyword` (lines 388-509): the whole body sits in a
`try`/`except Exception` that returns `[]`, the browser-start failure also
returns `[]`, and every page-level exception is absorbed inside the loop,
so the body always returns normally with a list. -/
def search_keyword_body (browserOk : Bool) (env : Nat → PageOutcome)
    (maxPages : Nat) : List ItemData :=
  if browserOk then (search_keyword_pages env maxPages).1 else []

/-- The tenacity `retry(stop=stop_after_attempt(n), retry=retry_if_exception_type(...))`
wrapper: rerun the wrapped call while it raises a designated exception and
attempts remain, then let the final exception escape. -/
def tenacity_attempts {α : Type} (retryOn : PyExc → Bool)
    (f : Nat → Except PyExc α) : Nat → Nat → Except PyExc α
  | idx, 0 => f idx
  | idx, remaining + 1 =>
    match f idx with
    | Except.ok a => Except.ok a
    | Except.error e =>
      if retryOn e then tenacity_attempts retryOn f (idx + 1) remaining
      else Except.error e

/-- `EbayScraper.search_keyword` as exposed to callers: the tenacity wrapper
(3 attempts, exponential backoff between them) around a body that never
raises.  `Except.error` would model an escaping exception. -/
def search_keyword_model (browserOk : Bool) (env : Nat → PageOutcome)
    (maxPages : Nat) : Except PyExc (List ItemData) :=
  tenacity_attempts is_transport_exc
    (fun _ => Except.ok (search_keyword_body browserOk env maxPages)) 0 2

/-- Longest digit run at the head of the character list, with the remainder. -/
def takeDigits : List Char → List Char × List Char
  | [] => ([], [])
  | c :: cs =>
    if c.isDigit then
      let r := takeDigits cs
      (c :: r.1, r.2)
    else ([], c :: cs)

/-- `re.search` position scan: try the single-position matcher at every
suffix from the left and return the first (leftmost) match. -/
def searchAt {α : Type} (matchAt : List Char → Option α) : List Char → Option α
  | [] => matchAt []
  | c :: cs =>
    match matchAt (c :: cs) with
    | some a => some a
    | none => searchAt matchAt cs

/-- All ways the greedy `(?:,\d{3})*` can split the input, most groups
first (the regex engine's backtracking order).  `fuel` only bounds the
recursion; each group consumes four characters, so `cs.length` suffices. -/
def commaGroupSplits : Nat → List Char → List (List Char × List Char)
  | 0, cs => [([], cs)]
  | fuel + 1, cs =>
    match cs with
    | ',' :: d1 :: d2 :: d3 :: rest =>
      if d1.isDigit && d2.isDigit && d3.isDigit then
        ((commaGroupSplits fuel rest).map
          (fun p => (',' :: d1 :: d2 :: d3 :: p.1, p.2))) ++ [([], cs)]
      else [([], cs)]
    | _ => [([], cs)]

/-- The candidate matches of greedy `\d{1,3}`, longest first (backtracking
order): prefixes of the leading digit run of length `min 3 run`, down to 1. -/
def d13Candidates (cs : List Char) : List (List Char × List Char) :=
  let p := takeDigits cs
  let n := min 3 p.1.length
  (List.range n).map (fun j => ((p.1).take (n - j), (p.1).drop (n - j) ++ p.2))

/-- First success of `f` over a candidate list. -/
def firstSome {α β : Type} (f : α → Option β) : List α → Option β
  | [] => none
  | a :: as =>
    match f a with
    | some b => some b
    | none => firstSome f as

/-- Backtracking matcher for `\d{1,3}(?:,\d{3})*` at the current position:
feed each candidate capture and its remainder to the continuation `k`,
in the engine's preference order. -/
def matchNumGroup {α : Type} (cs : List Char) (k : List Char → List Char → Option α) :
    Option α :=
  firstSome
    (fun p => firstSome (fun q => k (p.1 ++ q.1) q.2) (commaGroupSplits p.2.length p.2))
    (d13Candidates cs)

/-- Single-position matcher for the USD price pattern
`\$(\d{1,3}(?:,\d{3})*\.\d{2})`, returning the captured group. -/
def matchUSDAt (cs : List Char) : Option (List Char) :=
  match cs with
  | '$' :: rest =>
    matchNumGroup rest (fun g r =>
      match r with
      | '.' :: a :: b :: _ =>
        if a.isDigit && b.isDigit then some (g ++ ['.', a, b]) else none
      | _ => none)
  | _ => none

/-- `re.search(r"\$(\d{1,3}(?:,\d{3})*\.\d{2})", text)`, group 1. -/
def usdSearch (cs : List Char) : Option (List Char) := searchAt matchUSDAt cs

/-- Python `\s` on the characters these texts contain. -/
def isPySpace (c : Char) : Bool :=
  c = ' ' || c = '\t' || c = '\n' || c = '\r'

/-- The terminal `(?:円|JPY)` of the yen patterns, tested at the given point. -/
def matchYenMark : List Char → Bool
  | '円' :: _ => true
  | 'J' :: 'P' :: 'Y' :: _ => true
  | _ => false

/-- Single-position matcher for the JPY price pattern
`(\d{1,3}(?:,\d{3})*|\d+)\s*(?:円|JPY)`: the grouped alternative is tried
with full backtracking before the plain `\d+` alternative.  After a digit
run, a shorter greedy prefix is always followed by another digit, which is
neither whitespace nor a yen marker, so only the maximal `\d+` run and the
maximal `\s*` run need testing. -/
def matchJPYAt (cs : List Char) : Option (List Char) :=
  match matchNumGroup cs (fun g r =>
      if matchYenMark (r.dropWhile isPySpace) then some g else none) with
  | some g => some g
  | none =>
    let p := takeDigits cs
    if p.1.isEmpty then none
    else if matchYenMark (p.2.dropWhile isPySpace) then some p.1
    else none

/-- `re.search(r"(\d{1,3}(?:,\d{3})*|\d+)\s*(?:円|JPY)", text)`, group 1. -/
def jpySearch (cs : List Char) : Option (List Char) := searchAt matchJPYAt cs

/-- Single-position matcher for the shipping pattern
`(\d{1,3}(?:,\d{3})*)\s*(?:円|JPY)` (no plain `\d+` alternative). -/
def matchShippingAt (cs : List Char) : Option (List Char) :=
  matchNumGroup cs (fun g r =>
    if matchYenMark (r.dropWhile isPySpace) then some g else none)

/-- `re.search(r"(\d{1,3}(?:,\d{3})*)\s*(?:円|JPY)", text)`, group 1. -/
def shippingSearch (cs : List Char) : Option (List Char) := searchAt matchShippingAt cs

/-- Single-position matcher for `/itm/(\d+)` in the listing URL: the literal
path segment followed by at least one digit; nothing follows the greedy
group, so the maximal run is the capture. -/
def matchItmAt (cs : List Char) : Option (List Char) :=
  match cs with
  | '/' :: 'i' :: 't' :: 'm' :: '/' :: rest =>
    let p := takeDigits rest
    if p.1.isEmpty then none else some p.1
  | _ => none

/-- `re.search(r"/itm/(\d+)", url)`, group 1. -/
def itmSearch (cs : List Char) : Option (List Char) := searchAt matchItmAt cs

/-- Single-position matcher for `(\d+) bid`: a non-maximal greedy prefix is
followed by a digit, not a space, so only the maximal run needs testing. -/
def matchBidsAt (cs : List Char) : Option (List Char) :=
  let p := takeDigits cs
  if p.1.isEmpty then none
  else
    match p.2 with
    | ' ' :: 'b' :: 'i' :: 'd' :: _ => some p.1
    | _ => none

/-- Single-position matcher for `(\d+)` followed by a literal marker letter,
as in `(\d+)d`, `(\d+)h`, `(\d+)m` of the time-left parser. -/
def matchNumBeforeLit (lit : Char) (cs : List Char) : Option (List Char) :=
  let p := takeDigits cs
  if p.1.isEmpty then none
  else
    match p.2 with
    | c :: _ => if c = lit then some p.1 else none
    | [] => none

/-- The character class `[a-zA-Z0-9_ -]` of the seller-name group. -/
def isSellerNameChar (c : Char) : Bool :=
  ('a' ≤ c && c ≤ 'z') || ('A' ≤ c && c ≤ 'Z') || c.isDigit || c = '_' || c = ' ' || c = '-'

/-- Candidate captures of greedy `[a-zA-Z0-9_ -]+`, longest first. -/
def namePrefixCandidates (cs : List Char) : List (List Char × List Char) :=
  let run := cs.takeWhile isSellerNameChar
  let rest := cs.drop run.length
  (List.range run.length).map (fun j => (run.take (run.length - j), run.drop (run.length - j) ++ rest))

/-- Matcher for the rating group `\d+(?:\.\d+)?%` anchored at the current
point.  A non-maximal greedy digit prefix is followed by a digit, never by
`.` or `%`, so only the maximal runs need testing; if the optional fraction
is present but not followed by `%`, dropping the optional leaves `.` where
`%` is required, so the match fails. -/
def matchRating (cs : List Char) : Option (List Char) :=
  let p := takeDigits cs
  if p.1.isEmpty then none
  else
    match p.2 with
    | '%' :: _ => some (p.1 ++ ['%'])
    | '.' :: r2 =>
      let q := takeDigits r2
      if q.1.isEmpty then none
      else
        match q.2 with
        | '%' :: _ => some (p.1 ++ '.' :: (q.1 ++ ['%']))
        | _ => none
    | _ => none

/-- Single-position matcher for the seller pattern
`([a-zA-Z0-9_ -]+)\s\((\d{1,3}(?:,\d{3})*)\)\s(\d+(?:\.\d+)?%)`,
returning the three captures. -/
def matchSellerAt (cs : List Char) : Option (List Char × List Char × List Char) :=
  firstSome
    (fun p =>
      match p.2 with
      | w :: '(' :: afterP =>
        if isPySpace w then
          matchNumGroup afterP (fun g2 r2 =>
            match r2 with
            | ')' :: w2 :: r3 =>
              if isPySpace w2 then
                match matchRating r3 with
                | some g3 => some (p.1, g2, g3)
                | none => none
              else none
            | _ => none)
        else none
      | _ => none)
    (namePrefixCandidates cs)

/-- `re.search` for the seller pattern, groups 1-3. -/
def sellerSearch (cs : List Char) : Option (List Char × List Char × List Char) :=
  searchAt matchSellerAt cs

/-- Decimal digit characters to a natural number. -/
def digitsToNat (cs : List Char) : Nat :=
  cs.foldl (fun acc c => acc * 10 + (c.toNat - ('0').toNat)) 0

/-- Python `str.replace(ch, "")`: drop every occurrence of one character. -/
def removeChar (ch : Char) (cs : List Char) : List Char :=
  cs.filter (fun x => x != ch)

/-- Split a numeric literal at its first decimal point. -/
def splitAtDot : List Char → List Char × List Char
  | [] => ([], [])
  | '.' :: rest => ([], rest)
  | c :: rest =>
    let p := splitAtDot rest
    (c :: p.1, p.2)

/-- Python `float()` on the matched numeric literals (digits with at most
one decimal point), as an exact rational. -/
def pyFloat (cs : List Char) : ℚ :=
  let p := splitAtDot cs
  (digitsToNat p.1 : ℚ) + (digitsToNat p.2 : ℚ) / ((10 : ℚ) ^ p.2.length)

/-- Python `str.strip()`: remove whitespace from both ends. -/
def pyStrip (cs : List Char) : List Char :=
  ((cs.dropWhile isPySpace).reverse.dropWhile isPySpace).reverse

/-- Substring containment, for Python's `needle in text`. -/
def hasSubstr (needle : List Char) : List Char → Bool
  | [] => needle.isEmpty
  | c :: cs => List.isPrefixOf needle (c :: cs) || hasSubstr needle cs

/-- The price branch of `_extract_items_data` (lines 551-566): a text
containing `$` is parsed against the USD pattern, any other text against
the JPY pattern; on a match both price (commas stripped, then `float`) and
currency are set, otherwise both keys stay absent. -/
def extract_price (t : List Char) : Option ℚ × Option String :=
  if t.contains '$' then
    match usdSearch t with
    | some g => (some (pyFloat (removeChar ',' g)), some "USD")
    | none => (none, none)
  else
    match jpySearch t with
    | some g => (some (pyFloat (removeChar ',' g)), some "JPY")
    | none => (none, none)

/-- The seller branch of `_extract_items_data` (lines 582-594): on a pattern
match the stripped name, the feedback count with thousands separators
removed, and the percentage divided by 100 are set together; otherwise all
three keys stay absent. -/
def extract_seller (t : List Char) : Option String × Option Nat × Option ℚ :=
  match sellerSearch t with
  | some (g1, g2, g3) =>
    (some (String.mk (pyStrip g1)),
     some (digitsToNat (removeChar ',' g2)),
     some (pyFloat (removeChar '%' g3) / 100))
  | none => (none, none, none)

/-- The shipping branch (lines 569-578): free-shipping phrases map to 0.0,
otherwise the yen shipping pattern is parsed; no match leaves the key absent. -/
def extract_shipping (t : List Char) : Option ℚ :=
  if hasSubstr ("Free".toList) t || hasSubstr ("無料".toList) t then some 0
  else
    match shippingSearch t with
    | some g => some (pyFloat (removeChar ',' g))
    | none => none

/-- The bids branch (lines 597-606): a present element yields the matched
count or 0; an absent element yields 0. -/
def extract_bids : Option (List Char) → Nat
  | some txt =>
    match searchAt matchBidsAt txt with
    | some g => digitsToNat g
    | none => 0
  | none => 0

/-- What `_extract_items_data` observes on one `li.s-item` node: each
selector's presence and inner text. -/
structure ListingNode where
  isAd : Bool := false
  linkHref : Option String := none
  titleText : Option String := none
  priceText : Option String := none
  shippingText : Option String := none
  sellerText : Option String := none
  bidsText : Option String := none
  conditionText : Option String := none
  hasBuyItNowMark : Bool := false
  timeLeftText : Option String := none
  imageSrc : Option String := none
deriving DecidableEq, Repr

/-- The per-listing body of `_extract_items_data` (lines 526-650): ads are
skipped; every other listing is appended to the results whether or not an
item identifier was extracted from its URL.  Each dict key is present
exactly when the source sets it: item_url for a present link, item_id for a
matching URL, price/currency together on a price match, bids_count and
stock_quantity always, listing_type always (is_buy_it_now only in the
buy-it-now branch), auction_end_time for a present time-left text. -/
def extract_item (now : Int) (node : ListingNode) : Option ItemData :=
  if node.isAd then none
  else
    let priceCur : Option ℚ × Option String :=
      match node.priceText with
      | some t => extract_price (pyStrip t.toList)
      | none => (none, none)
    let seller : Option String × Option Nat × Option ℚ :=
      match node.sellerText with
      | some t => extract_seller (pyStrip t.toList)
      | none => (none, none, none)
    let bids : Nat := extract_bids (node.bidsText.map (fun t : String => pyStrip t.toList))
    let listingKind : Option String × Option Bool :=
      if 0 < bids then (some "auction", none)
      else if node.hasBuyItNowMark then (some "fixed_price", some true)
      else (some "unknown", none)
    let endTime : Option Int :=
      match node.timeLeftText with
      | some t =>
        let txt := pyStrip t.toList
        let days := ((searchAt (matchNumBeforeLit 'd') txt).map digitsToNat).getD 0
        let hours := ((searchAt (matchNumBeforeLit 'h') txt).map digitsToNat).getD 0
        let minutes := ((searchAt (matchNumBeforeLit 'm') txt).map digitsToNat).getD 0
        some (now + 86400 * (days : Int) + 3600 * (hours : Int) + 60 * (minutes : Int))
      | none => none
    some
      { item_id := node.linkHref.bind (fun url => (itmSearch url.toList).map String.mk)
        title := node.titleText.map (fun t : String => String.mk (pyStrip t.toList))
        price := priceCur.1
        currency := priceCur.2
        shipping_price := node.shippingText.bind (fun t : String => extract_shipping (pyStrip t.toList))
        stock_quantity := some 1
        seller_name := seller.1
        seller_rating := seller.2.2
        seller_feedback_count := seller.2.1
        auction_end_time := endTime
        listing_type := listingKind.1
        condition := node.conditionText.map (fun t : String => String.mk (pyStrip t.toList))
        is_buy_it_now := listingKind.2
        bids_count := some bids
        item_url := node.linkHref
        image_url := node.imageSrc }

/-- `_extract_items_data` over the node list: skipped listings contribute
nothing, every other listing is appended in order. -/
def extract_items_data (now : Int) (nodes : List ListingNode) : List ItemData :=
  nodes.foldl
    (fun acc n =>
      match extract_item now n with
      | some d => acc ++ [d]
      | none => acc) []

/-- Item ids of a record list, with the `result.get('item_id', '')` default. -/
def idsOf (rs : List ItemData) : List String :=
  rs.map (fun r => (r.item_id).getD "")

/-- A well-formed scraped record with item id "100". -/
def itemA : ItemData := { item_id := some "100" }

/-- A well-formed scraped record with item id "200". -/
def itemB : ItemData := { item_id := some "200" }

/-- A well-formed scraped record with item id "300". -/
def itemC : ItemData := { item_id := some "300" }

/-- An environment in which every page load hits a navigation timeout. -/
def envAllTimeout : Nat → PageOutcome := fun _ => PageOutcome.timeoutFail

/-- Fifty item records, as page 1 of the max_pages=2 pagination example. -/
def itemsFifty : List ItemData := List.replicate 50 itemA

/-- The pagination example environment: page 1 yields 50 items with an
enabled next control, page 2 yields zero items. -/
def envTwoPages : Nat → PageOutcome := fun k =>
  if k = 0 then PageOutcome.pageItems itemsFifty true
  else PageOutcome.pageItems [] true

/-- A listing node whose canonical URL has no `/itm/<digits>` segment. -/
def nodeNoItm : ListingNode := { linkHref := some "https://www.ebay.com/foo?x=1" }

/-- A listing node whose canonical URL carries an item identifier. -/
def nodeWithItm : ListingNode := { linkHref := some "https://www.ebay.com/itm/123456?x=1" }

/-- Keyword batch rows for the orchestrator evaluation. -/
def kwRowA : KeywordRow := { id := 1, keyword := "alpha" }

/-- Second keyword row for the orchestrator evaluation. -/
def kwRowB : KeywordRow := { id := 2, keyword := "beta" }

/-- Third keyword row for the orchestrator evaluation. -/
def kwRowC : KeywordRow := { id := 3, keyword := "gamma" }

/-- A full `search` command run over three keywords: the first raises, the
second returns one result, the third returns an empty list. -/
def c1runFixture : DB × SearchHistoryRow :=
  run_search_command {}
    [(kwRowA, KwOutcome.err "boom"), (kwRowB, KwOutcome.ok [itemA]), (kwRowC, KwOutcome.ok [])]
    0 10

/-- A job already finalized in the terminal `completed` state. -/
def jobCompleted : SearchHistoryRow :=
  { total_keywords := 1, processed_keywords := 1, successful_keywords := 1
    status := "completed", start_time := some 0, end_time := some 5
    execution_time_seconds := some 5 }

/-- A database that already holds keyword 1 and its record "100". -/
def dbWithRow : DB :=
  { keywords := [{ id := 1, keyword := "widget" }]
    results := [mkEbaySearchResult 1 itemA] }

/-- C1: the claim says every completed job satisfies
processed == successful + failed and processed == total_keywords.  Running
the orchestrator on a batch of three keywords — one raising, one returning
a result, one returning an empty list — completes the job with
processed = 2, successful = 2, failed = 1 and total_keywords = 3, violating
both equations: a success overwrites `successful` with the loop index + 1,
a failure writes the constant `(i+1) - ((i+1)-1) = 1` into `failed`
(despite the adjacent comment announcing a failure-count update), and an
empty result skips the counter update entirely. -/
theorem c1_counter_slip_eval :
    (c1runFixture.2.status = "completed"
      ∧ c1runFixture.2.total_keywords = 3
      ∧ c1runFixture.2.processed_keywords = 2
      ∧ c1runFixture.2.successful_keywords = 2
      ∧ c1runFixture.2.failed_keywords = 1)
    ∧ ¬(c1runFixture.2.processed_keywords
        = c1runFixture.2.successful_keywords + c1runFixture.2.failed_keywords)
    ∧ ¬(c1runFixture.2.processed_keywords = c1runFixture.2.total_keywords) := by
  decide

/-- C2 counterexample: one result set holding the same item twice is
persisted in full — both copies are inserted, because the existence check
sees only rows committed before the call — so two records share the pair
(keyword 1, item "100") and the total inserted count 2 exceeds the single
distinct item id. -/
theorem c2_duplicate_within_run_counterexample :
    (save_search_results {} 0 1 [itemA, itemA]).2 = 2
    ∧ (save_search_results (save_search_results {} 0 1 [itemA, itemA]).1 1 1 [itemA]).2 = 0
    ∧ ((save_search_results (save_search_results {} 0 1 [itemA, itemA]).1 1 1 [itemA]).1.results.filter
        (fun row => row.keyword_id == 1 && row.item_id == "100")).length = 2
    ∧ (idsOf [itemA, itemA] ++ idsOf [itemA]).dedup.length = 1 := by
  decide

/-- C3 counterexample: with every page load timing out — a transport
failure that persists past every retry budget — `search_keyword` still
returns normally with an empty list instead of raising. -/
theorem c3_no_raise_counterexample :
    search_keyword_model true envAllTimeout 1 = Except.ok [] := by
  rfl

/-- C3 amended: `search_keyword` never raises at all.  The tenacity
decorator would retry transport-class exceptions, but the body's blanket
`except Exception` (and the internal timeout handling) absorbs every
failure, so the wrapper always receives a normal return; recoverable
conditions such as a browser-start failure yield an empty list. -/
theorem c3_never_raises_amended :
    ∀ (browserOk : Bool) (env : Nat → PageOutcome) (maxPages : Nat),
      search_keyword_model browserOk env maxPages
        = Except.ok (search_keyword_body browserOk env maxPages)
      ∧ search_keyword_model false env maxPages = Except.ok [] := by
  intro browserOk env maxPages
  exact ⟨rfl, rfl⟩

/-- C4 counterexample: with max_pages = 1 and every load timing out, the
loop reloads page 1 once per unit of its timeout-retry budget, performing
4 page loads — more than the claimed bound of 1. -/
theorem c4_extra_loads_counterexample :
    (search_keyword_pages envAllTimeout 1).2 = 4
    ∧ ¬((search_keyword_pages envAllTimeout 1).2 ≤ 1) := by
  decide

/-- C5 counterexample: `update_search_job_status` enforces no monotonicity:
a job already in the terminal `completed` state is moved straight back to
`in_progress` by a later status update. -/
theorem c5_reversal_counterexample :
    jobCompleted.status = "completed"
    ∧ (update_search_job_status jobCompleted 9 none none none (some "in_progress") none).status
        = "in_progress" := by
  decide

/-- C6 counterexample: a listing whose canonical URL has no `/itm/<digits>`
segment is not discarded by extraction — it is returned with item_id
absent. -/
theorem c6_extraction_keeps_counterexample :
    (extract_items_data 0 [nodeNoItm]).map ItemData.item_id = [none] := by
  decide

/-- C7: price extraction maps "$12.34" to price 12.34 with currency USD and
"1,234円" to price 1234.0 with currency JPY, and any price text matching
neither pattern leaves both price and currency unset. -/
theorem c7_price_extraction :
    (extract_price ("$12.34".toList) = (some ((1234 : ℚ) / 100), some "USD")
      ∧ extract_price ("1,234円".toList) = (some (1234 : ℚ), some "JPY"))
    ∧ ∀ t : List Char, usdSearch t = none → jpySearch t = none →
        extract_price t = (none, none) := by
  refine ⟨⟨?_, ?_⟩, ?_⟩
  · rw [show extract_price ("$12.34".toList)
        = (some (pyFloat ['1', '2', '.', '3', '4']), some "USD") from rfl]
    simp only [pyFloat]
    rw [show splitAtDot ['1', '2', '.', '3', '4'] = (['1', '2'], ['3', '4']) from rfl]
    rw [show digitsToNat ['1', '2'] = 12 from rfl, show digitsToNat ['3', '4'] = 34 from rfl]
    norm_num
  · rw [show extract_price ("1,234円".toList)
        = (some (pyFloat ['1', '2', '3', '4']), some "JPY") from rfl]
    simp only [pyFloat]
    rw [show splitAtDot ['1', '2', '3', '4'] = (['1', '2', '3', '4'], []) from rfl]
    rw [show digitsToNat ['1', '2', '3', '4'] = 1234 from rfl,
      show digitsToNat ([] : List Char) = 0 from rfl]
    norm_num
  · intro t h1 h2
    unfold extract_price
    cases hc : t.contains '$' <;> simp [hc, h1, h2]

/-- C7 witness: a text matching neither price pattern leaves both fields
unset. -/
theorem c7_price_extraction_witness :
    extract_price ("no price here".toList) = (none, none) :=
  c7_price_extraction.2 ("no price here".toList) (by decide) (by decide)

/-- C8: seller extraction on "shopname (1,234) 98.7%" populates the name,
the feedback count with the thousands separator stripped, and the rating
as the percentage divided by 100, together; any text not matching the
pattern leaves all three unset. -/
theorem c8_seller_extraction :
    extract_seller ("shopname (1,234) 98.7%".toList)
      = (some "shopname", some 1234, some ((987 : ℚ) / 1000))
    ∧ ∀ t : List Char, sellerSearch t = none →
        extract_seller t = (none, none, none) := by
  refine ⟨?_, ?_⟩
  · rw [show extract_seller ("shopname (1,234) 98.7%".toList)
        = (some "shopname", some 1234, some (pyFloat ['9', '8', '.', '7'] / 100)) from rfl]
    simp only [pyFloat]
    rw [show splitAtDot ['9', '8', '.', '7'] = (['9', '8'], ['7']) from rfl]
    rw [show digitsToNat ['9', '8'] = 98 from rfl, show digitsToNat ['7'] = 7 from rfl]
    norm_num
  · intro t h
    unfold extract_seller
    rw [h]

/-- C8 witness: a text not matching the seller pattern leaves all three
fields unset. -/
theorem c8_seller_extraction_witness :
    extract_seller ("%%%".toList) = (none, none, none) :=
  c8_seller_extraction.2 ("%%%".toList) (by decide)

/-- Helper: touching a keyword's `last_searched_at` changes exactly the first
row matching the id, as observed through `find?`. -/
theorem touchKeywordFirst_find (now : Int) (kid : Nat) (ks : List KeywordRow) :
    (touchKeywordFirst now kid ks).find? (fun k => k.id == kid)
      = (ks.find? (fun k => k.id == kid)).map
          (fun k => { k with last_searched_at := some now }) := by
  induction ks with
  | nil => simp [touchKeywordFirst]
  | cons k ks ih =>
    by_cases h : k.id = kid
    · simp [touchKeywordFirst, h]
    · simp [touchKeywordFirst, h, ih]

/-- C9: a truthy error text is appended after a newline delimiter, never
overwriting: appending error A and then error B to a job with an empty log
yields exactly A, the delimiter, then B. -/
theorem c9_error_log_append (job : SearchHistoryRow) (now1 now2 : Int) (a b : String)
    (ha : a ≠ "") (hb : b ≠ "") (hlog : job.error_log = none) :
    (update_search_job_status
        (update_search_job_status job now1 none none none none (some a))
        now2 none none none none (some b)).error_log
      = some (a ++ "\n" ++ b) := by
  have ha' : a.isEmpty = false :=
    Bool.eq_false_iff.mpr (fun h => ha ((String.isEmpty_iff a).mp h))
  have hb' : b.isEmpty = false :=
    Bool.eq_false_iff.mpr (fun h => hb ((String.isEmpty_iff b).mp h))
  simp [update_search_job_status, apply_processed, apply_successful, apply_failed,
    apply_status, apply_error, hlog, ha', hb']

/-- C9 witness: appending "errA" then "errB" to a fresh job. -/
theorem c9_error_log_append_witness :
    (update_search_job_status
        (update_search_job_status (start_search_job 2 0) 3 none none none none (some "errA"))
        7 none none none none (some "errB")).error_log
      = some ("errA" ++ "\n" ++ "errB") :=
  c9_error_log_append (start_search_job 2 0) 3 7 "errA" "errB" (by decide) (by decide) rfl

/-- C10: `save_search_results` with an empty record list returns 0 and
leaves the state untouched; with a non-empty list it sets the matched
keyword's `last_searched_at` to the call's wall-clock time, however many
records end up inserted. -/
theorem c10_save_results_frame (db : DB) (now : Int) (kid : Nat) (rs : List ItemData) :
    save_search_results db now kid [] = (db, 0)
    ∧ (rs ≠ [] →
        (save_search_results db now kid rs).1.keywords.find? (fun k => k.id == kid)
          = (db.keywords.find? (fun k => k.id == kid)).map
              (fun k => { k with last_searched_at := some now })) := by
  constructor
  · rfl
  · intro hrs
    have hne : rs.isEmpty = false := by
      cases rs
      · exact absurd rfl hrs
      · rfl
    simp [save_search_results, hne, touchKeywordFirst_find]

/-- C10 witness: an empty save on a populated database returns (db, 0); a
non-empty save whose only record is already present inserts nothing yet
still stamps the keyword's `last_searched_at`. -/
theorem c10_save_results_frame_witness :
    save_search_results dbWithRow 5 1 [] = (dbWithRow, 0)
    ∧ (save_search_results dbWithRow 5 1 [itemA]).2 = 0
    ∧ (save_search_results dbWithRow 5 1 [itemA]).1.keywords.find? (fun k => k.id == 1)
        = some { id := 1, keyword := "widget", last_searched_at := some 5 } := by
  have h := c10_save_results_frame dbWithRow 5 1 [itemA]
  refine ⟨h.1, by decide, ?_⟩
  rw [h.2 (by decide)]
  decide

/-- Helper: the processed-count update touches only `processed_keywords`. -/
theorem apply_processed_eta (job : SearchHistoryRow) (o : Option Nat) :
    ∃ v, apply_processed job o = { job with processed_keywords := v } := by
  cases o with
  | none => exact ⟨job.processed_keywords, rfl⟩
  | some p => exact ⟨p, rfl⟩

/-- Helper: the successful-count update touches only `successful_keywords`. -/
theorem apply_successful_eta (job : SearchHistoryRow) (o : Option Nat) :
    ∃ v, apply_successful job o = { job with successful_keywords := v } := by
  cases o with
  | none => exact ⟨job.successful_keywords, rfl⟩
  | some s => exact ⟨s, rfl⟩

/-- Helper: the failed-count update touches only `failed_keywords`. -/
theorem apply_failed_eta (job : SearchHistoryRow) (o : Option Nat) :
    ∃ v, apply_failed job o = { job with failed_keywords := v } := by
  cases o with
  | none => exact ⟨job.failed_keywords, rfl⟩
  | some f => exact ⟨f, rfl⟩

/-- Helper: the error update touches only `error_log`. -/
theorem apply_error_eta (job : SearchHistoryRow) (o : Option String) :
    ∃ v, apply_error job o = { job with error_log := v } := by
  cases o with
  | none => exact ⟨job.error_log, rfl⟩
  | some e =>
    by_cases he : e.isEmpty
    · exact ⟨job.error_log, by simp [apply_error, he]⟩
    · cases hl : job.error_log with
      | none => exact ⟨some e, by simp [apply_error, he, hl]⟩
      | some l =>
        by_cases hle : l.isEmpty
        · exact ⟨some e, by simp [apply_error, he, hl, hle]⟩
        · exact ⟨some (l ++ "\n" ++ e), by simp [apply_error, he, hl, hle]⟩

/-- Helper: a non-terminal `in_progress` status update only overwrites the
status field. -/
theorem apply_status_in_progress (now : Int) (job : SearchHistoryRow) :
    apply_status now job (some "in_progress") = { job with status := "in_progress" } := by
  rfl

/-- Helper: the `completed` status update stamps `end_time` and recomputes
`execution_time_seconds` from `start_time`. -/
theorem apply_status_completed (now : Int) (job : SearchHistoryRow) (t0 : Int)
    (h : job.start_time = some t0) :
    apply_status now job (some "completed")
      = { job with
            status := "completed"
            end_time := some now
            execution_time_seconds := some (now - t0) } := by
  simp [apply_status, h, show ("completed").isEmpty = false from rfl]

/-- Helper: every in-loop update passes status `in_progress`, so it leaves
`end_time`, `execution_time_seconds` and `start_time` untouched. -/
theorem update_in_progress_fields (job : SearchHistoryRow) (now : Int)
    (p s f : Option Nat) (e : Option String) :
    (update_search_job_status job now p s f (some "in_progress") e).status = "in_progress"
    ∧ (update_search_job_status job now p s f (some "in_progress") e).end_time = job.end_time
    ∧ (update_search_job_status job now p s f (some "in_progress") e).execution_time_seconds
        = job.execution_time_seconds
    ∧ (update_search_job_status job now p s f (some "in_progress") e).start_time
        = job.start_time := by
  unfold update_search_job_status
  obtain ⟨v1, h1⟩ := apply_processed_eta job p
  rw [h1]
  obtain ⟨v2, h2⟩ := apply_successful_eta _ s
  rw [h2]
  obtain ⟨v3, h3⟩ := apply_failed_eta _ f
  rw [h3]
  rw [apply_status_in_progress]
  obtain ⟨el, h4⟩ := apply_error_eta _ e
  rw [h4]
  simp

/-- Helper: the orchestrator loop keeps the job in `in_progress` with no
`end_time` or `execution_time_seconds`, whatever each keyword's outcome. -/
theorem loop_preserves_in_progress (now t0 : Int) :
    ∀ (kws : List (KeywordRow × KwOutcome)) (i : Nat) (db : DB) (job : SearchHistoryRow),
      job.status = "in_progress" → job.end_time = none →
      job.execution_time_seconds = none → job.start_time = some t0 →
      (search_keywords_loop now i kws db job).2.status = "in_progress"
      ∧ (search_keywords_loop now i kws db job).2.end_time = none
      ∧ (search_keywords_loop now i kws db job).2.execution_time_seconds = none
      ∧ (search_keywords_loop now i kws db job).2.start_time = some t0 := by
  intro kws
  induction kws with
  | nil =>
    intro i db job h1 h2 h3 h4
    exact ⟨by simpa [search_keywords_loop] using h1, by simpa [search_keywords_loop] using h2,
      by simpa [search_keywords_loop] using h3, by simpa [search_keywords_loop] using h4⟩
  | cons hd tl ih =>
    intro i db job h1 h2 h3 h4
    obtain ⟨kw, o⟩ := hd
    cases o with
    | ok results =>
      by_cases hres : results.isEmpty
      · simpa [search_keywords_loop, hres] using ih (i + 1) db job h1 h2 h3 h4
      · have hupd := update_in_progress_fields job now
          (some (i + 1)) (some (i + 1)) none none
        simpa [search_keywords_loop, hres] using
          ih (i + 1) (save_search_results db now kw.id results).1 _
            hupd.1 (hupd.2.1.trans h2) (hupd.2.2.1.trans h3) (hupd.2.2.2.trans h4)
    | err e =>
      have hupd := update_in_progress_fields job now
        (some (i + 1)) none (some ((i + 1) - ((i + 1) - 1)))
        (some ("キーワード '" ++ kw.keyword ++ "': " ++ e))
      simpa [search_keywords_loop] using
        ih (i + 1) db _
          hupd.1 (hupd.2.1.trans h2) (hupd.2.2.1.trans h3) (hupd.2.2.2.trans h4)

/-- C5 amended: `update_search_job_status` itself enforces no monotonicity
(see the counterexample), but over the orchestrator's actual update
sequence the job stays `in_progress` with `end_time` and
`execution_time_seconds` unset throughout the loop, and only the single
final `completed` transition stamps both. -/
theorem c5_terminal_transition_amended (db : DB) (kws : List (KeywordRow × KwOutcome))
    (t0 tEnd : Int) :
    ((search_keywords_loop t0 0 kws db (start_search_job kws.length t0)).2.status = "in_progress"
      ∧ (search_keywords_loop t0 0 kws db (start_search_job kws.length t0)).2.end_time = none
      ∧ (search_keywords_loop t0 0 kws db
          (start_search_job kws.length t0)).2.execution_time_seconds = none)
    ∧ ((run_search_command db kws t0 tEnd).2.status = "completed"
      ∧ (run_search_command db kws t0 tEnd).2.end_time = some tEnd
      ∧ (run_search_command db kws t0 tEnd).2.execution_time_seconds = some (tEnd - t0)) := by
  have hinv := loop_preserves_in_progress t0 t0 kws 0 db (start_search_job kws.length t0)
    rfl rfl rfl rfl
  refine ⟨⟨hinv.1, hinv.2.1, hinv.2.2.1⟩, ?_⟩
  unfold run_search_command update_search_job_status
  simp only [apply_processed, apply_successful, apply_failed]
  rw [apply_status_completed _ _ t0 hinv.2.2.2]
  simp [apply_error]

/-- Helper: the insertion fold of `save_search_results` appends exactly the
records passing the per-record guard, in order. -/
theorem save_fold (existing : List EbaySearchResult) (kid : Nat) (rs : List ItemData) :
    ∀ acc : List EbaySearchResult,
      rs.foldl
        (fun acc r =>
          if keepRecord existing kid r then acc ++ [mkEbaySearchResult kid r] else acc) acc
        = acc ++ (rs.filter (keepRecord existing kid)).map (mkEbaySearchResult kid) := by
  induction rs with
  | nil => intro acc; simp
  | cons r rs ih =>
    intro acc
    by_cases hk : keepRecord existing kid r
    · simp [List.foldl_cons, hk, ih, List.filter_cons]
    · simp [List.foldl_cons, hk, ih, List.filter_cons]

/-- Helper: the observable effect of `save_search_results` on the results
table and on its return value. -/
theorem save_results_spec (db : DB) (now : Int) (kid : Nat) (rs : List ItemData) :
    (save_search_results db now kid rs).1.results
        = db.results ++ (rs.filter (keepRecord db.results kid)).map (mkEbaySearchResult kid)
    ∧ (save_search_results db now kid rs).2
        = (rs.filter (keepRecord db.results kid)).length := by
  by_cases hre : rs.isEmpty
  · have hnil : rs = [] := by
      cases rs
      · rfl
      · exact absurd hre (by simp)
    subst hnil
    simp [save_search_results]
  · constructor
    · simp [save_search_results, hre, save_fold]
    · simp [save_search_results, hre, save_fold, List.length_map]

/-- C6 amended: extraction does not discard a listing lacking an item
identifier (see the counterexample); the discard happens at persistence:
`save_search_results` inserts only records with a non-empty item_id, so the
results table never acquires a row without one. -/
theorem c6_persisted_item_id_amended (db : DB) (now : Int) (kid : Nat) (rs : List ItemData)
    (h : db.results.all (fun row => row.item_id != "") = true) :
    (save_search_results db now kid rs).1.results.all (fun row => row.item_id != "") = true := by
  rw [(save_results_spec db now kid rs).1, List.all_append, h, Bool.true_and]
  rw [List.all_eq_true]
  intro row hrow
  obtain ⟨r, hr, hrow_eq⟩ := List.mem_map.mp hrow
  obtain ⟨hrmem, hkeep⟩ := List.mem_filter.mp hr
  subst hrow_eq
  have hid : (((r.item_id).getD "") != "") = true := Bool.and_elim_left hkeep
  simpa [mkEbaySearchResult] using hid

/-- C6 witness: saving the extraction output of one unidentifiable listing
and one identifiable listing leaves every persisted row with an item id. -/
theorem c6_persisted_item_id_witness :
    (save_search_results {} 0 1 (extract_items_data 0 [nodeNoItm, nodeWithItm])).1.results.all
        (fun row => row.item_id != "") = true :=
  c6_persisted_item_id_amended {} 0 1 (extract_items_data 0 [nodeNoItm, nodeWithItm]) rfl

/-- Helper: however the page loads turn out, the pagination loop performs at
most one load per remaining page plus one per unit of retry budget plus the
final breaking load. -/
theorem search_pages_loads_le (env : Nat → PageOutcome) (maxPages : Nat) :
    ∀ (fuel cp r loads : Nat) (acc : List ItemData),
      (search_pages env maxPages fuel cp r loads acc).2 ≤ loads + (maxPages + 1 - cp) + r := by
  intro fuel
  induction fuel with
  | zero => intro cp r loads acc; (simp [search_pages]; omega)
  | succ n ih =>
    intro cp r loads acc
    simp only [search_pages]
    split
    · rename_i hcp
      cases henv : env loads with
      | timeoutFail =>
        simp only
        split
        · rename_i hr
          exact le_trans (ih cp (r - 1) (loads + 1) acc) (by omega)
        · (simp; omega)
      | otherFail => (simp; omega)
      | pageItems lst hasNext =>
        simp only
        split
        · (simp; omega)
        · split
          · exact le_trans (ih (cp + 1) r (loads + 1) (acc ++ lst)) (by omega)
          · (simp; omega)
    · rename_i hcp
      (simp; omega)

/-- Helper: when no load ever times out, the loop performs at most one load
per remaining page. -/
theorem search_pages_loads_le_no_timeout (env : Nat → PageOutcome) (maxPages : Nat)
    (henv : ∀ k, env k ≠ PageOutcome.timeoutFail) :
    ∀ (fuel cp r loads : Nat) (acc : List ItemData),
      (search_pages env maxPages fuel cp r loads acc).2 ≤ loads + (maxPages + 1 - cp) := by
  intro fuel
  induction fuel with
  | zero => intro cp r loads acc; simp [search_pages]
  | succ n ih =>
    intro cp r loads acc
    simp only [search_pages]
    split
    · rename_i hcp
      cases hev : env loads with
      | timeoutFail => exact absurd hev (henv loads)
      | otherFail => (simp; omega)
      | pageItems lst hasNext =>
        simp only
        split
        · (simp; omega)
        · split
          · exact le_trans (ih (cp + 1) r (loads + 1) (acc ++ lst)) (by omega)
          · (simp; omega)
    · rename_i hcp
      simp

/-- C4 amended: the loop performs at most max_pages + 3 page loads (the
surplus bounded by the shared timeout-retry budget of 3; see the
counterexample for the overshoot), and at most max_pages loads when no
load times out; pagination stops on a page yielding zero items, so the
max_pages=2 example with pages of 50 and 0 items returns exactly 50
records in exactly 2 page loads, never requesting a third. -/
theorem c4_pagination_amended :
    (∀ (env : Nat → PageOutcome) (maxPages : Nat),
        (search_keyword_pages env maxPages).2 ≤ maxPages + 3
      ∧ ((∀ k, env k ≠ PageOutcome.timeoutFail) →
          (search_keyword_pages env maxPages).2 ≤ maxPages))
    ∧ ((search_keyword_pages envTwoPages 2).1.length = 50
      ∧ (search_keyword_pages envTwoPages 2).2 = 2) := by
  refine ⟨?_, by decide⟩
  intro env maxPages
  constructor
  · have h := search_pages_loads_le env maxPages (maxPages + 4) 1 3 0 []
    unfold search_keyword_pages
    omega
  · intro hn
    have h := search_pages_loads_le_no_timeout env maxPages hn (maxPages + 4) 1 3 0 []
    unfold search_keyword_pages
    omega

/-- C4 witness: the timeout-free example environment stays within the
max_pages load bound. -/
theorem c4_pagination_witness :
    (search_keyword_pages envTwoPages 2).2 ≤ 2 :=
  (c4_pagination_amended.1 envTwoPages 2).2 (by
    intro k
    unfold envTwoPages
    split <;> simp)

/-- Helper: over freshly inserted rows the duplicate check is exactly a
membership test on the first run's item ids. -/
theorem resultExists_map_mem (l : List ItemData) (kid : Nat) (iid : String) :
    resultExists (l.map (mkEbaySearchResult kid)) kid iid = true ↔ iid ∈ idsOf l := by
  simp [resultExists, List.any_eq_true, idsOf, mkEbaySearchResult]

/-- Helper: boolean form of `resultExists_map_mem`. -/
theorem resultExists_map_eq (l : List ItemData) (kid : Nat) (iid : String) :
    resultExists (l.map (mkEbaySearchResult kid)) kid iid = decide (iid ∈ idsOf l) := by
  by_cases h : iid ∈ idsOf l
  · simp [h, (resultExists_map_mem l kid iid).mpr h]
  · rw [decide_eq_false h]
    cases hb : resultExists (l.map (mkEbaySearchResult kid)) kid iid
    · rfl
    · exact absurd ((resultExists_map_mem l kid iid).mp hb) h

/-- C2 amended: provided each run's result set carries no duplicate item ids
and every record has an id — duplicates inside a single call are each
inserted, because the existence check consults only rows committed before
the call (see the counterexample) — persisting two result sets for the same
keyword into an empty results table inserts exactly one row per distinct
item id across both sets, with `save_search_results` returning each call's
inserted count. -/
theorem c2_dedup_across_runs_amended
    (r1 r2 : List ItemData) (kid : Nat) (now1 now2 : Int) (db : DB)
    (hdb : db.results = [])
    (h1 : ∀ r ∈ r1, (r.item_id).getD "" ≠ "")
    (h2 : ∀ r ∈ r2, (r.item_id).getD "" ≠ "")
    (hn1 : (idsOf r1).Nodup) (hn2 : (idsOf r2).Nodup) :
    (save_search_results db now1 kid r1).2
      + (save_search_results (save_search_results db now1 kid r1).1 now2 kid r2).2
    = ((idsOf r1).toFinset ∪ (idsOf r2).toFinset).card := by
  have hfilter1 : r1.filter (keepRecord db.results kid) = r1 := by
    rw [hdb]
    apply List.filter_eq_self.mpr
    intro r hr
    simp [keepRecord, resultExists]
    exact h1 r hr
  have hcount1 : (save_search_results db now1 kid r1).2 = r1.length := by
    rw [(save_results_spec db now1 kid r1).2, hfilter1]
  have hres1 : (save_search_results db now1 kid r1).1.results
      = r1.map (mkEbaySearchResult kid) := by
    rw [(save_results_spec db now1 kid r1).1, hfilter1, hdb]
    simp
  have hkeep2 : ∀ r ∈ r2,
      keepRecord (save_search_results db now1 kid r1).1.results kid r
        = !(decide ((r.item_id).getD "" ∈ idsOf r1)) := by
    intro r hr
    rw [keepRecord, hres1, resultExists_map_eq]
    have hb : (((r.item_id).getD "") != "") = true := bne_iff_ne.mpr (h2 r hr)
    rw [hb, Bool.true_and]
  have hfilter2 : r2.filter (keepRecord (save_search_results db now1 kid r1).1.results kid)
      = r2.filter (fun r => !(decide ((r.item_id).getD "" ∈ idsOf r1))) :=
    List.filter_congr hkeep2
  have hcount2 : (save_search_results (save_search_results db now1 kid r1).1 now2 kid r2).2
      = ((idsOf r2).filter (fun x => !(decide (x ∈ idsOf r1)))).length := by
    rw [(save_results_spec _ now2 kid r2).2, hfilter2]
    show (r2.filter _).length
        = ((r2.map (fun r => (r.item_id).getD "")).filter
            (fun x => !(decide (x ∈ idsOf r1)))).length
    rw [List.filter_map, List.length_map]
    rfl
  have hlen1 : r1.length = (idsOf r1).toFinset.card := by
    rw [List.toFinset_card_of_nodup hn1, idsOf, List.length_map]
  have hsd : ((idsOf r2).filter (fun x => !(decide (x ∈ idsOf r1)))).length
      = ((idsOf r2).toFinset \ (idsOf r1).toFinset).card := by
    have hnodupf : ((idsOf r2).filter (fun x => !(decide (x ∈ idsOf r1)))).Nodup :=
      hn2.filter _
    rw [← List.toFinset_card_of_nodup hnodupf, List.toFinset_filter]
    congr 1
    rw [Finset.sdiff_eq_filter]
    apply Finset.filter_congr
    intro x hx
    simp [List.mem_toFinset]
  rw [hcount1, hcount2, hlen1, hsd]
  rw [Finset.union_comm, ← Finset.card_sdiff_add_card]
  omega

/-- C2 witness: two overlapping duplicate-free runs over a fresh table
insert one row per distinct item id. -/
theorem c2_dedup_across_runs_witness :
    (save_search_results {} 0 1 [itemA, itemB]).2
      + (save_search_results (save_search_results {} 0 1 [itemA, itemB]).1 1 1 [itemA, itemC]).2
    = ((idsOf [itemA, itemB]).toFinset ∪ (idsOf [itemA, itemC]).toFinset).card :=
  c2_dedup_across_runs_amended [itemA, itemB] [itemA, itemC] 1 0 1 {}
    rfl (by decide) (by decide) (by decide) (by decide)
